import Mathlib

/-!
Shallow embedding of the CoatDoctor worker (src/index.ts) and verification of
its specification claims.

The worker is a Cloudflare Worker; its external collaborators (Workers AI
embedding and chat models, the Vectorize index, the R2 object store, and the
platform base64 decoder atob) are modelled as oracles carried in an `Env`
record, each returning `Except` so that a rejected promise / thrown exception
is an `Except.error`.  JavaScript control flow is transliterated directly:
there is no try/catch around the vectorize or rationale calls in
`handleAnalyze`, so their errors propagate to the router, which is modelled by
`runAnalyze` / `runSeed` turning an `Except.error` into a 500 response, just
like the try/catch in the worker's `fetch`.

Every handler also returns the list of external calls it performed, so that
claims of the form "no embedding call is made" are the statement that the
trace is empty.
-/

/-- Character-list test: does the list start with the given pattern?  Used to
implement the JavaScript `String.prototype.includes` substring test. -/
def startsWithCh : List Char → List Char → Bool
  | [], _ => true
  | _ :: _, [] => false
  | a :: as, b :: bs => a == b && startsWithCh as bs

/-- Contiguous-substring occurrence of `pat` in a character list. -/
def hasSub (pat : List Char) : List Char → Bool
  | [] => pat.isEmpty
  | c :: rest => startsWithCh pat (c :: rest) || hasSub pat rest

/-- Model of JavaScript `s.includes(pat)`: `pat` occurs contiguously in `s`
(the empty pattern always occurs). -/
def jsIncludes (s pat : String) : Bool :=
  hasSub pat.toList s.toList

/-- Model of JavaScript `s.toLowerCase()`.  All strings this program
lowercases are ASCII, where `Char.toLower` agrees with JavaScript. -/
def jsToLower (s : String) : String :=
  String.mk (s.toList.map Char.toLower)

/-- Model of JavaScript `s.trim()`: strip whitespace from both ends.  The
messages the claims quantify over use ASCII whitespace, where
`Char.isWhitespace` agrees with JavaScript. -/
def jsTrim (s : String) : String :=
  String.mk (((s.toList.dropWhile Char.isWhitespace).reverse.dropWhile
      Char.isWhitespace).reverse)

/-- Characters kept verbatim by the sanitizer regex `[^\w.\-]+` in
`sanitizeFileName`: word characters, dot and hyphen. -/
def isWordDotDash (c : Char) : Bool :=
  c.isAlphanum || c == '_' || c == '.' || c == '-'

/-- One pass of `name.replace(/[^\w.\-]+/g, "_")`: each maximal run of
disallowed characters becomes a single underscore.  The Boolean state records
whether the previous character was part of a replaced run. -/
def sanitizeChars (l : List Char) : List Char :=
  (l.foldl
    (fun (acc : List Char × Bool) c =>
      if isWordDotDash c then (acc.1 ++ [c], false)
      else if acc.2 then acc
      else (acc.1 ++ ['_'], true))
    ([], false)).1

/-- Model of `sanitizeFileName`: replace runs of disallowed characters with
an underscore, then `slice(0, 160)`. -/
def sanitizeFileName (name : String) : String :=
  String.mk ((sanitizeChars name.toList).take 160)

/-- Helper for `stripDataUrl`: the characters after the first comma, when a
comma is present (JavaScript `indexOf(",")` plus `slice(i + 1)`). -/
def afterComma : List Char → Option (List Char)
  | [] => none
  | c :: rest => if c == ',' then some rest else afterComma rest

/-- Model of `stripDataUrlPrefix` (renamed): an empty or missing data URL
gives the empty string; otherwise everything after the first comma, or the
whole string when it has no comma. -/
def stripDataUrl (s : String) : String :=
  if s == "" then ""
  else
    match afterComma s.toList with
    | some rest => String.mk rest
    | none => s

/-! The knowledge base (`KB` in src/index.ts).  `severity` is the TypeScript
string-literal union "Low" | "Medium" | "High", modelled as a string. -/

/-- One SOP entry of the knowledge base. -/
structure SopEntry where
  code : String
  name : String
  severity : String
  text : String
  root_causes : List String
  corrective_actions : List String
deriving DecidableEq

/-- KB entry CD001-OP (orange peel). -/
def kbCD001 : SopEntry :=
  { code := "CD001-OP"
  , name := "Orange peel – textured surface"
  , severity := "Medium"
  , text := "Uneven, orange-skin texture of the coating film. Usually linked to viscosity/leveling, excessive wet film, and overly aggressive early drying (skinning)."
  , root_causes :=
      [ "Viscosity outside process window (too high → poor leveling)"
      , "Excess wet film thickness (especially at head)"
      , "Aggressive early drying (IR/hot air) causing skinning"
      , "Insufficient airflow / uneven leveling time" ]
  , corrective_actions :=
      [ "Adjust viscosity to SOP DIN-4 window and re-check leveling"
      , "Reduce wet film thickness; verify application weight"
      , "Soften first zone drying; avoid premature skinning"
      , "Balance airflow; run structured speed/viscosity tests" ] }

/-- KB entry CD002-PH (pinholes / small craters). -/
def kbCD002 : SopEntry :=
  { code := "CD002-PH"
  , name := "Pinholes / small craters"
  , severity := "High"
  , text := "Small holes/craters after baking; typically contamination, trapped volatiles or foam from turbulent mixing/pumping."
  , root_causes :=
      [ "Air entrainment/turbulent mixing causing micro-bubbles"
      , "Surface contamination (oil/silicone) at substrate/rollers"
      , "Solvent balance → too fast surface evaporation traps volatiles"
      , "Humidity peaks / dirty environment" ]
  , corrective_actions :=
      [ "Degas lacquer; avoid turbulent mixing/pumping; check pump setup"
      , "Clean substrate, rollers and environment thoroughly"
      , "Adjust solvent balance/oven; slower initial evaporation profile"
      , "Compare lab bake vs line to isolate process vs formulation" ] }

/-- KB entry CD003-LN (streaks / lines). -/
def kbCD003 : SopEntry :=
  { code := "CD003-LN"
  , name := "Streaks / lines"
  , severity := "Medium"
  , text := "Linear defects tied to doctor blade or roller condition; mechanical inspection and alignment are key."
  , root_causes :=
      [ "Doctor blade wear/damage or incorrect pressure"
      , "Roller damage/mapping correlating with repeat length"
      , "Flow/viscosity imbalance amplifying mechanical marks" ]
  , corrective_actions :=
      [ "Inspect/replace blade; set correct pressure and alignment"
      , "Map rollers vs defect repeat; regrind/replace if needed"
      , "Cross-check viscosity/flow; run elimination tests" ] }

/-- KB entry CD004-AD (poor adhesion / flaking). -/
def kbCD004 : SopEntry :=
  { code := "CD004-AD"
  , name := "Poor adhesion / flaking"
  , severity := "High"
  , text := "Loss of adhesion between layers; check pretreatment, cure of previous coats and mixing/hardener ratio."
  , root_causes :=
      [ "Pre-treatment off-spec (washing/chemistry)"
      , "Under-bake of previous layer or extreme over-bake"
      , "Incorrect hardener ratio / exceeded pot life"
      , "Surface contamination (oil/silicone)" ]
  , corrective_actions :=
      [ "Verify pretreatment parameters + documentation"
      , "Check oven curve; correct under/over-bake scenarios"
      , "Validate hardener ratio/pot life; mix fresh batch"
      , "Perform tape test per SOP; ensure cleanliness" ] }

/-- KB entry CD005-STK (sticking after side print). -/
def kbCD005 : SopEntry :=
  { code := "CD005-STK"
  , name := "Sticking after side print"
  , severity := "Medium"
  , text := "Blocking of side-printed sheets/caps; cooling/stack rules and film build management are central."
  , root_causes :=
      [ "Insufficient cooling and improper stack management"
      , "Film build too high causing blocking"
      , "Crosslinker/lacquer batch sensitivity" ]
  , corrective_actions :=
      [ "Improve cooling; enforce stack height rules"
      , "Run small batch + lab oven tests to compare line vs lab"
      , "Evaluate crosslinker/lacquer batch; adjust formulation window" ] }

/-- The knowledge base, in declaration order. -/
def KB : List SopEntry :=
  [kbCD001, kbCD002, kbCD003, kbCD004, kbCD005]

/-- Model of `findSop`: `KB.find(e => e.code === code)`. -/
def findSop (code : String) : Option SopEntry :=
  KB.find? (fun e => e.code == code)

/-! The transient match candidate and the fallback scorer. -/

/-- Transient best-guess match (`{code, name, severity, score}`).  Scores are
JavaScript numbers; on the fallback path they are the small integers of the
keyword heuristic, on the vector path whatever similarity the index reports,
so an integer model loses nothing the claims depend on. -/
structure MatchCandidate where
  code : String
  name : String
  severity : String
  score : Int
deriving DecidableEq

/-- JavaScript numeric coercion of a Boolean, as in `0 + true`. -/
def boolToNum (b : Bool) : Int :=
  if b then 1 else 0

/-- The fallback score expression of `handleAnalyze`, with JavaScript operator
precedence preserved: the source writes

  (A ? 2 : 0) + B ? 2 : 0 + (C ? (D ? 2 : 0) : 0)

where `+` binds tighter than `?:`, so it parses as

  ((A ? 2 : 0) + Number(B)) ? 2 : (0 + (C ? (D ? 2 : 0) : 0))

with `A` the orange-peel test, `B` the pinhole/crater Boolean, and `C`/`D`
the adhesion test.  A nonzero number is truthy.  `t` is the lower-cased
description. -/
def fallbackScore (t : String) (e : SopEntry) : Int :=
  if ((if jsIncludes (jsToLower e.text) "orange" && jsIncludes t "orange peel" then (2 : Int) else 0)
      + boolToNum (jsIncludes (jsToLower e.text) "pinhole"
          && (jsIncludes t "pinholes" || jsIncludes t "crater"))) ≠ 0
  then 2
  else 0 + (if jsIncludes t "adhesion" || jsIncludes t "tape test"
            then (if e.code == "CD004-AD" then (2 : Int) else 0) else 0)

/-- One element of the `scored` array: a KB entry with its fallback score. -/
structure Scored where
  entry : SopEntry
  score : Int
deriving DecidableEq

/-- Insertion step of a stable descending-by-score sort: an element moves past
exactly the elements whose score is strictly greater, so equal-score elements
keep their original relative order. -/
def insertDesc (x : Scored) : List Scored → List Scored
  | [] => [x]
  | y :: ys => if y.score > x.score then y :: insertDesc x ys else x :: y :: ys

/-- Stable sort by score descending, modelling
`scored.sort((a, b) => b.score - a.score)`: ECMAScript `Array.prototype.sort`
is stable, and with this comparator it orders by score descending keeping
declaration order on ties. -/
def sortDesc : List Scored → List Scored
  | [] => []
  | x :: xs => insertDesc x (sortDesc xs)

/-- The fallback branch of `handleAnalyze`: score every KB entry against the
lower-cased description, sort stably by score descending, and take the top
entry (`scored[0]?.entry ?? KB[0]`, `scored[0]?.score ?? 0`). -/
def fallbackBest (description : String) : MatchCandidate :=
  let t := jsToLower description
  let scored := KB.map (fun e => Scored.mk e (fallbackScore t e))
  let sorted := sortDesc scored
  let top := (sorted.head?.map Scored.entry).getD kbCD001
  let topScore := (sorted.head?.map Scored.score).getD 0
  { code := top.code, name := top.name, severity := top.severity, score := topScore }

/-! The environment of external collaborators, and the trace of external
calls a handler performs. -/

/-- One record of the Vectorize upsert payload built by `seedKBIntoVectorize`:
id, embedding values, and `{code, name, severity}` metadata. -/
structure VectorRecord where
  id : String
  values : List Int
  mcode : String
  mname : String
  mseverity : String
deriving DecidableEq

/-- One match returned by `VECTORIZE_INDEX.query` (with `returnMetadata:
"all"`): an id, a similarity score, and optional metadata fields. -/
structure VQueryMatch where
  id : String
  score : Int
  mcode : Option String
  mname : Option String
  mseverity : Option String
deriving DecidableEq

/-- An external call performed by a handler.  Claims about "no embedding
calls" or "the keyword path was used" are statements about this trace. -/
inductive ExtCall
  | embed (texts : List String)
  | vquery (vec : List Int)
  | vupsert (payload : List VectorRecord)
  | r2put (key : String)
  | llm (description : String)
deriving DecidableEq

/-- The worker environment.  Binding presence is a Boolean; each external
operation is an oracle whose `Except.error` models a rejected promise /
thrown exception.  `embedRes` already folds in `res?.data ?? []` of
`embedTexts`; `llmRes` returns the optional `resp.response` string; `atobRes`
is the platform base64 decoder used by `decodeBase64ToBytes`, returning the
decoded bytes. -/
structure Env where
  vectorizeConfigured : Bool
  r2Configured : Bool
  embedRes : List String → Except String (List (List Int))
  queryRes : List Int → Except String (List VQueryMatch)
  upsertRes : List VectorRecord → Except String (Option String)
  llmRes : String → Except String (Option String)
  atobRes : String → Except Unit (List Nat)
  now : Nat

/-! Response model.  `Resp` is the JSON response: a status code and a body of
one of the shapes the worker produces. -/

/-- The `defect` object of an analyze response: the resolved SOP entry's
fields, without its embedding text. -/
structure DefectOut where
  code : String
  name : String
  severity : String
  root_causes : List String
  corrective_actions : List String
deriving DecidableEq

/-- Projection of a KB entry to the `defect` response object. -/
def toDefectOut (e : SopEntry) : DefectOut :=
  { code := e.code, name := e.name, severity := e.severity
  , root_causes := e.root_causes, corrective_actions := e.corrective_actions }

/-- The JSON bodies produced by the handlers the claims mention.  `errBody e`
is the error envelope with ok false and the error message `e`; `chatErr` is
the chat handler's error envelope, which has no ok field. -/
inductive RespBody
  | analyzeOk (image_key : Option String) (best_match : MatchCandidate)
      (defect : DefectOut) (rationale : String)
  | errBody (error : String)
  | chatReply (reply : String)
  | chatErr (error : String)
  | seedOk (mutationId : Option String)
deriving DecidableEq

/-- An HTTP JSON response: status and body. -/
structure Resp where
  status : Nat
  body : RespBody
deriving DecidableEq

/-- The best match of an analyze success response, when the response is one. -/
def respBestMatch (r : Resp) : Option MatchCandidate :=
  match r.body with
  | .analyzeOk _ bm _ _ => some bm
  | _ => none

/-- The defect payload of an analyze success response, when the response is
one. -/
def respDefect (r : Resp) : Option DefectOut :=
  match r.body with
  | .analyzeOk _ _ d _ => some d
  | _ => none

/-- The image key of an analyze success response, when the response is one. -/
def respImageKey (r : Resp) : Option (Option String) :=
  match r.body with
  | .analyzeOk ik _ _ _ => some ik
  | _ => none

/-! The route handlers.  Each returns `Except String Resp` (an `Except.error`
is an exception escaping the handler) together with the trace of external
calls it performed, in order. -/

/-- Model of `vectorizeMatch`: no index binding gives null; otherwise embed
the description (`const [vec] = await embedTexts(...)`; a missing first
vector gives null), query the index with `topK: 3, returnMetadata: "all"`,
and shape the first match, defaulting missing metadata fields
(`best.metadata?.code ?? best.id`, name to the empty string, severity to
"Medium").  Errors of the embedding or query calls are not caught here. -/
def vectorizeMatch (env : Env) (description : String) :
    Except String (Option MatchCandidate) × List ExtCall :=
  if !env.vectorizeConfigured then (.ok none, [])
  else
    match env.embedRes [description] with
    | .error e => (.error e, [.embed [description]])
    | .ok vecs =>
      match vecs.head? with
      | none => (.ok none, [.embed [description]])
      | some vec =>
        match env.queryRes vec with
        | .error e => (.error e, [.embed [description], .vquery vec])
        | .ok results =>
          match results.head? with
          | none => (.ok none, [.embed [description], .vquery vec])
          | some best =>
            (.ok (some { code := best.mcode.getD best.id
                       , name := best.mname.getD ""
                       , severity := best.mseverity.getD "Medium"
                       , score := best.score })
            , [.embed [description], .vquery vec])

/-- The image-storage block of `handleAnalyze`, which runs when the R2
binding exists and `image_b64` is a nonempty string, inside try/catch: a
decode failure leaves `image_key` null; the key is assigned before the R2
put, and the catch ignores a put failure, so the key is reported even then.
The put's outcome is never read, so only the call is recorded. -/
def imgStep (env : Env) (body_image : Option String) (body_filename : Option String) :
    Option String × List ExtCall :=
  let image_b64 := body_image.getD ""
  let filenameIn := sanitizeFileName (body_filename.getD "")
  if env.r2Configured && image_b64 != "" then
    match env.atobRes (stripDataUrl image_b64) with
    | .error _ => (none, [])
    | .ok _ =>
      let key := "uploads/" ++ toString env.now ++ "_"
                 ++ (if filenameIn == "" then "defect.jpg" else filenameIn)
      (some key, [.r2put key])
  else (none, [])

/-- The match step of `handleAnalyze`: prefer the vectorize match; when it
returns null, run the deterministic keyword fallback.  An error of
`vectorizeMatch` propagates. -/
def matchStep (env : Env) (description : String) :
    Except String MatchCandidate × List ExtCall :=
  match vectorizeMatch env description with
  | (.error e, tr) => (.error e, tr)
  | (.ok (some m), tr) => (.ok m, tr)
  | (.ok none, tr) => (.ok (fallbackBest description), tr)

/-- The parsed body of an analyze request; `none` fields model absent JSON
fields (the handler coalesces them with the empty string). -/
structure AnalyzeBody where
  description : Option String
  image_base64 : Option String
  filename : Option String
deriving DecidableEq

/-- Model of `handleAnalyze`.  A `none` body is the unparsable-JSON case
(400).  Then: optional image storage, the match step, defect resolution
(`findSop(best_match.code) ?? KB[0]`), and the rationale call
(`(resp && resp.response) || ""`), whose error is not caught and
propagates. -/
def handleAnalyze (env : Env) (body? : Option AnalyzeBody) :
    Except String Resp × List ExtCall :=
  match body? with
  | none => (.ok ⟨400, .errBody "Invalid JSON"⟩, [])
  | some body =>
    let description := body.description.getD ""
    match imgStep env body.image_base64 body.filename with
    | (image_key, tr1) =>
      match matchStep env description with
      | (.error e, tr2) => (.error e, tr1 ++ tr2)
      | (.ok best_match, tr2) =>
        let defect := (findSop best_match.code).getD kbCD001
        match env.llmRes description with
        | .error e => (.error e, tr1 ++ tr2 ++ [.llm description])
        | .ok r =>
          (.ok ⟨200, .analyzeOk image_key best_match (toDefectOut defect) (r.getD "")⟩
          , tr1 ++ tr2 ++ [.llm description])

/-- The router around `handleAnalyze`: the worker's `fetch` wraps every
handler in try/catch and turns an exception into a 500 with the error's
message. -/
def runAnalyze (env : Env) (body? : Option AnalyzeBody) : Resp × List ExtCall :=
  match handleAnalyze env body? with
  | (.ok r, tr) => (r, tr)
  | (.error e, tr) => (⟨500, .errBody e⟩, tr)

/-- Model of `seedKBIntoVectorize`: embed every KB text, build the upsert
payload (`id: KB[i].code` with `{code, name, severity}` metadata), upsert,
and report the mutation id.  Embedding and upsert errors are not caught. -/
def seedKBIntoVectorize (env : Env) : Except String (Option String) × List ExtCall :=
  if !env.vectorizeConfigured then (.ok none, [])
  else
    let texts := KB.map (fun k => k.text)
    match env.embedRes texts with
    | .error e => (.error e, [.embed texts])
    | .ok vecs =>
      let payload := vecs.enum.map (fun p =>
        let k := (KB.get? p.1).getD kbCD001
        VectorRecord.mk k.code p.2 k.code k.name k.severity)
      match env.upsertRes payload with
      | .error e => (.error e, [.embed texts, .vupsert payload])
      | .ok mid => (.ok mid, [.embed texts, .vupsert payload])

/-- Model of `handleSeed`: a missing index binding is answered immediately
with a 500 `ok:false` envelope, before any external call. -/
def handleSeed (env : Env) : Except String Resp × List ExtCall :=
  if !env.vectorizeConfigured then
    (.ok ⟨500, .errBody "VECTORIZE_INDEX binding missing"⟩, [])
  else
    match seedKBIntoVectorize env with
    | (.error e, tr) => (.error e, tr)
    | (.ok mid, tr) => (.ok ⟨200, .seedOk mid⟩, tr)

/-- The router around `handleSeed`. -/
def runSeed (env : Env) : Resp × List ExtCall :=
  match handleSeed env with
  | (.ok r, tr) => (r, tr)
  | (.error e, tr) => (⟨500, .errBody e⟩, tr)

/-- The parsed body of a chat request. -/
structure ChatBody where
  message : Option String
deriving DecidableEq

/-- The clarifying prompt the chat handler returns for short messages. -/
def clarifyPrompt : String :=
  "Please describe the defect in more detail – substrate, coating type, drying, line speed, etc."

/-- The static sentence substituted when the rationale is empty. -/
def chatStaticTail : String :=
  "Full SOP steps are part of the CoatDoctor handbook and internal engine."

/-- Model of `handleChat`: trim the message; an empty or shorter-than-three
message gets the clarifying prompt without touching the pipeline; otherwise
delegate to `handleAnalyze` with the message as description and reshape the
result (an `ok:false` analyze body would get the cannot-reach reply; an
analyze exception propagates). -/
def handleChat (env : Env) (body? : Option ChatBody) :
    Except String Resp × List ExtCall :=
  match body? with
  | none => (.ok ⟨400, .chatErr "Invalid JSON"⟩, [])
  | some body =>
    let message := jsTrim (body.message.getD "")
    if message == "" || message.length < 3 then
      (.ok ⟨200, .chatReply clarifyPrompt⟩, [])
    else
      match handleAnalyze env (some ⟨some message, none, none⟩) with
      | (.error e, tr) => (.error e, tr)
      | (.ok resp, tr) =>
        match resp.body with
        | .analyzeOk _ bm d r =>
          let reply :=
            "Based on your description, a likely match is:\n"
            ++ "• Code: " ++ bm.code ++ "\n"
            ++ "• Name: " ++ d.name ++ "\n"
            ++ "• Severity: " ++ bm.severity ++ "\n"
            ++ "• Match score (demo): " ++ toString bm.score ++ "\n\n"
            ++ (if r == "" then chatStaticTail else r)
          (.ok ⟨200, .chatReply reply⟩, tr)
        | _ =>
          (.ok ⟨200, .chatReply "I could not reach the analysis engine right now. Please try again later."⟩, tr)

/-- The router around `handleChat`. -/
def runChat (env : Env) (body? : Option ChatBody) : Resp × List ExtCall :=
  match handleChat env body? with
  | (.ok r, tr) => (r, tr)
  | (.error e, tr) => (⟨500, .errBody e⟩, tr)

/-! Concrete environments used to evaluate the claims on explicit inputs. -/

/-- A benign environment: no vectorize index, no R2 bucket, every oracle
answering trivially. -/
def envBase : Env :=
  { vectorizeConfigured := false
  , r2Configured := false
  , embedRes := fun _ => .ok []
  , queryRes := fun _ => .ok []
  , upsertRes := fun _ => .ok none
  , llmRes := fun _ => .ok (some "")
  , atobRes := fun _ => .ok []
  , now := 0 }

/-- An environment whose embedding service throws. -/
def envEmbedFail : Env :=
  { envBase with
    vectorizeConfigured := true
  , embedRes := fun _ => .error "embed down" }

/-- An environment whose rationale model throws. -/
def envLlmFail : Env :=
  { envBase with llmRes := fun _ => .error "llm unavailable" }

/-- An environment with an R2 bucket whose base64 decoder rejects every
payload. -/
def envAtobFail : Env :=
  { envBase with
    r2Configured := true
  , atobRes := fun _ => .error () }

/-- An environment whose vector index returns a match whose metadata code is
not a KB code. -/
def envBogusMeta : Env :=
  { envBase with
    vectorizeConfigured := true
  , embedRes := fun _ => .ok [[1]]
  , queryRes := fun _ => .ok [⟨"idX", 9, some "BOGUS", some "Bogus name", some "High"⟩]
  , llmRes := fun _ => .ok (some "r") }

/-! The three independent rule contributions the specification describes:
each rule, evaluated on its own, contributes a fixed weight of 2 when its
condition holds, and the spec requires an entry's fallback score to be their
sum. -/

/-- Orange-peel rule: +2 when the entry text mentions "orange" and the
description mentions "orange peel". -/
def orangeRuleContrib (t : String) (e : SopEntry) : Int :=
  if jsIncludes (jsToLower e.text) "orange" && jsIncludes t "orange peel" then 2 else 0

/-- Pinhole/crater rule: +2 when the entry text mentions "pinhole" and the
description mentions "pinholes" or "crater". -/
def pinholeRuleContrib (t : String) (e : SopEntry) : Int :=
  if jsIncludes (jsToLower e.text) "pinhole"
     && (jsIncludes t "pinholes" || jsIncludes t "crater") then 2 else 0

/-- Adhesion/tape-test rule: +2 for entry CD004-AD when the description
mentions "adhesion" or "tape test". -/
def adhesionRuleContrib (t : String) (e : SopEntry) : Int :=
  if (jsIncludes t "adhesion" || jsIncludes t "tape test")
     && e.code == "CD004-AD" then 2 else 0

/-- Modelled from the spec: the highest fallback score over the KB ("select
the entry with the strictly highest score").  Scores are nonnegative, so a
zero base is neutral. -/
def maxFallbackScore (t : String) : Int :=
  (KB.map (fun e => fallbackScore t e)).foldr max 0

/-- Modelled from the spec: "on a tie, select the first entry in KB
declaration order" — the first KB entry whose score attains the maximum. -/
def specFirstMaxEntry (t : String) : SopEntry :=
  (KB.find? (fun e => fallbackScore t e == maxFallbackScore t)).getD kbCD001

/-- Modelled from the spec: the match candidate built from the first
maximal-score entry of the fallback ranking. -/
def specFallbackBest (description : String) : MatchCandidate :=
  let t := jsToLower description
  let e := specFirstMaxEntry t
  { code := e.code, name := e.name, severity := e.severity, score := fallbackScore t e }

/-! Helper lemmas.  Per-entry evaluation of the fallback score: each KB
entry's text settles the entry-side containment tests — only CD001's text
contains "orange", and no entry's text contains "pinhole" (CD002's text says
"Small holes/craters", its name is not consulted) — so for each entry the
score is a function of the description-side tests alone. -/

/-- CD001 scores 2 exactly when the description mentions "orange peel". -/
theorem fallbackScore_CD001 (t : String) :
    fallbackScore t kbCD001 = if jsIncludes t "orange peel" then 2 else 0 := by
  have h1 : jsIncludes (jsToLower kbCD001.text) "orange" = true := by decide
  have h2 : jsIncludes (jsToLower kbCD001.text) "pinhole" = false := by decide
  have h3 : (kbCD001.code == "CD004-AD") = false := by decide
  unfold fallbackScore
  rw [h1, h2, h3]
  cases hb : jsIncludes t "orange peel" <;>
  cases hc : (jsIncludes t "adhesion" || jsIncludes t "tape test") <;>
    simp [boolToNum]

/-- CD002 always scores 0: its text does not contain the word "pinhole". -/
theorem fallbackScore_CD002 (t : String) :
    fallbackScore t kbCD002 = 0 := by
  have h1 : jsIncludes (jsToLower kbCD002.text) "orange" = false := by decide
  have h2 : jsIncludes (jsToLower kbCD002.text) "pinhole" = false := by decide
  have h3 : (kbCD002.code == "CD004-AD") = false := by decide
  unfold fallbackScore
  rw [h1, h2, h3]
  cases hc : (jsIncludes t "adhesion" || jsIncludes t "tape test") <;>
    simp [boolToNum]

/-- CD003 always scores 0. -/
theorem fallbackScore_CD003 (t : String) :
    fallbackScore t kbCD003 = 0 := by
  have h1 : jsIncludes (jsToLower kbCD003.text) "orange" = false := by decide
  have h2 : jsIncludes (jsToLower kbCD003.text) "pinhole" = false := by decide
  have h3 : (kbCD003.code == "CD004-AD") = false := by decide
  unfold fallbackScore
  rw [h1, h2, h3]
  cases hc : (jsIncludes t "adhesion" || jsIncludes t "tape test") <;>
    simp [boolToNum]

/-- CD004 scores 2 exactly when the description mentions "adhesion" or
"tape test". -/
theorem fallbackScore_CD004 (t : String) :
    fallbackScore t kbCD004 =
      if jsIncludes t "adhesion" || jsIncludes t "tape test" then 2 else 0 := by
  have h1 : jsIncludes (jsToLower kbCD004.text) "orange" = false := by decide
  have h2 : jsIncludes (jsToLower kbCD004.text) "pinhole" = false := by decide
  have h3 : (kbCD004.code == "CD004-AD") = true := by decide
  unfold fallbackScore
  rw [h1, h2, h3]
  cases hc : (jsIncludes t "adhesion" || jsIncludes t "tape test") <;>
    simp [boolToNum]

/-- CD005 always scores 0. -/
theorem fallbackScore_CD005 (t : String) :
    fallbackScore t kbCD005 = 0 := by
  have h1 : jsIncludes (jsToLower kbCD005.text) "orange" = false := by decide
  have h2 : jsIncludes (jsToLower kbCD005.text) "pinhole" = false := by decide
  have h3 : (kbCD005.code == "CD004-AD") = false := by decide
  unfold fallbackScore
  rw [h1, h2, h3]
  cases hc : (jsIncludes t "adhesion" || jsIncludes t "tape test") <;>
    simp [boolToNum]

/-- Closed-form evaluation of the fallback selection over the concrete KB:
the stable sort yields CD001 (score 2) when the description mentions
"orange peel", else CD004 (score 2) when it mentions "adhesion" or
"tape test", else CD001 with score 0 as the first entry of an all-zero
ranking. -/
theorem fallbackBest_eval (d : String) :
    fallbackBest d =
      (if jsIncludes (jsToLower d) "orange peel" then
          ⟨"CD001-OP", "Orange peel – textured surface", "Medium", 2⟩
       else if jsIncludes (jsToLower d) "adhesion" || jsIncludes (jsToLower d) "tape test" then
          ⟨"CD004-AD", "Poor adhesion / flaking", "High", 2⟩
       else ⟨"CD001-OP", "Orange peel – textured surface", "Medium", 0⟩) := by
  simp only [fallbackBest, KB, List.map_cons, List.map_nil,
             fallbackScore_CD001, fallbackScore_CD002, fallbackScore_CD003,
             fallbackScore_CD004, fallbackScore_CD005]
  cases hb : jsIncludes (jsToLower d) "orange peel" <;>
  cases hc : (jsIncludes (jsToLower d) "adhesion" || jsIncludes (jsToLower d) "tape test") <;>
    decide

/-- Closed-form evaluation of the spec-side selection, mirroring
`fallbackBest_eval`. -/
theorem specFallbackBest_eval (d : String) :
    specFallbackBest d =
      (if jsIncludes (jsToLower d) "orange peel" then
          ⟨"CD001-OP", "Orange peel – textured surface", "Medium", 2⟩
       else if jsIncludes (jsToLower d) "adhesion" || jsIncludes (jsToLower d) "tape test" then
          ⟨"CD004-AD", "Poor adhesion / flaking", "High", 2⟩
       else ⟨"CD001-OP", "Orange peel – textured surface", "Medium", 0⟩) := by
  cases hb : jsIncludes (jsToLower d) "orange peel" <;>
  cases hc : (jsIncludes (jsToLower d) "adhesion" || jsIncludes (jsToLower d) "tape test") <;>
    simp [specFallbackBest, specFirstMaxEntry, maxFallbackScore, KB, List.find?,
          fallbackScore_CD001, fallbackScore_CD002, fallbackScore_CD003,
          fallbackScore_CD004, fallbackScore_CD005, hb, hc] <;>
    decide

/-- The KB assigns each of its codes to exactly one entry. -/
theorem kb_code_unique : ∀ e ∈ KB, KB.countP (fun x => x.code == e.code) = 1 := by
  decide

/-- Resolving any code against the KB with the CD001 default yields a KB
entry. -/
theorem findSop_getD_mem (c : String) : (findSop c).getD kbCD001 ∈ KB := by
  unfold findSop
  cases h : KB.find? (fun e => e.code == c) with
  | none => simp [KB]
  | some e =>
    simpa using List.mem_of_find?_eq_some h

/-! The claims. -/

/-- C1, counterexample: with a semantic index configured and an embedding
service that throws, the analyze request does not degrade to the fallback —
it returns a 500 error response, refuting the claim that for every
description the resolver runs the Fallback Scorer and the request still
succeeds. -/
theorem c1_embed_error_fails_request :
    runAnalyze envEmbedFail (some ⟨some "x", none, none⟩) =
      (⟨500, .errBody "embed down"⟩, [.embed ["x"]]) := by
  decide

/-- C1, amended: an error raised by the embedding call or the vector-index
query is not caught by the resolver; it propagates out of `handleAnalyze`
and the top-level router turns it into a 500 error response.  The Fallback
Scorer runs (and the request succeeds) only when `vectorizeMatch` returns
no result without raising. -/
theorem c1_amended_error_propagates (env : Env) (d : String) :
    (∀ e tr, vectorizeMatch env d = (.error e, tr) →
       runAnalyze env (some ⟨some d, none, none⟩) = (⟨500, .errBody e⟩, tr)) ∧
    (∀ tr r, vectorizeMatch env d = (.ok none, tr) → env.llmRes d = .ok r →
       runAnalyze env (some ⟨some d, none, none⟩) =
         (⟨200, .analyzeOk none (fallbackBest d)
             (toDefectOut ((findSop (fallbackBest d).code).getD kbCD001)) (r.getD "")⟩
         , tr ++ [.llm d])) := by
  constructor
  · intro e tr hv
    unfold runAnalyze handleAnalyze matchStep imgStep
    dsimp only [Option.getD_some]
    rw [hv]
    simp
  · intro tr r hv hllm
    unfold runAnalyze handleAnalyze matchStep imgStep
    dsimp only [Option.getD_some]
    rw [hv]
    simp [hllm]

/-- C1, witness: the amended theorem applied to a concrete failing embedding
environment. -/
theorem c1_amended_error_propagates_witness :
    vectorizeMatch envEmbedFail "y" = (.error "embed down", [.embed ["y"]]) ∧
    runAnalyze envEmbedFail (some ⟨some "y", none, none⟩) =
      (⟨500, .errBody "embed down"⟩, [.embed ["y"]]) :=
  ⟨rfl,
   (c1_amended_error_propagates envEmbedFail "y").1 "embed down" [.embed ["y"]] rfl⟩

/-- C2: for every description and every KB entry, the fallback score computed
by the code's expression — despite its JavaScript precedence hazard — equals
the sum of the three independent rule contributions, because on this
catalog no entry can trigger two rules at once (only CD001's text contains
"orange", no entry's text contains "pinhole", and only CD004 is the
adhesion entry). -/
theorem c2_fallback_score_additive (t : String) (e : SopEntry) (he : e ∈ KB) :
    fallbackScore t e =
      orangeRuleContrib t e + pinholeRuleContrib t e + adhesionRuleContrib t e := by
  simp only [KB, List.mem_cons, List.not_mem_nil, or_false] at he
  rcases he with rfl | rfl | rfl | rfl | rfl
  · have h1 : jsIncludes (jsToLower kbCD001.text) "orange" = true := by decide
    have h2 : jsIncludes (jsToLower kbCD001.text) "pinhole" = false := by decide
    have h3 : (kbCD001.code == "CD004-AD") = false := by decide
    rw [fallbackScore_CD001]
    unfold orangeRuleContrib pinholeRuleContrib adhesionRuleContrib
    rw [h1, h2, h3]
    cases hb : jsIncludes t "orange peel" <;>
    cases hc : (jsIncludes t "adhesion" || jsIncludes t "tape test") <;>
      simp
  · have h1 : jsIncludes (jsToLower kbCD002.text) "orange" = false := by decide
    have h2 : jsIncludes (jsToLower kbCD002.text) "pinhole" = false := by decide
    have h3 : (kbCD002.code == "CD004-AD") = false := by decide
    rw [fallbackScore_CD002]
    unfold orangeRuleContrib pinholeRuleContrib adhesionRuleContrib
    rw [h1, h2, h3]
    simp
  · have h1 : jsIncludes (jsToLower kbCD003.text) "orange" = false := by decide
    have h2 : jsIncludes (jsToLower kbCD003.text) "pinhole" = false := by decide
    have h3 : (kbCD003.code == "CD004-AD") = false := by decide
    rw [fallbackScore_CD003]
    unfold orangeRuleContrib pinholeRuleContrib adhesionRuleContrib
    rw [h1, h2, h3]
    simp
  · have h1 : jsIncludes (jsToLower kbCD004.text) "orange" = false := by decide
    have h2 : jsIncludes (jsToLower kbCD004.text) "pinhole" = false := by decide
    have h3 : (kbCD004.code == "CD004-AD") = true := by decide
    rw [fallbackScore_CD004]
    unfold orangeRuleContrib pinholeRuleContrib adhesionRuleContrib
    rw [h1, h2, h3]
    cases hc : (jsIncludes t "adhesion" || jsIncludes t "tape test") <;>
      simp
  · have h1 : jsIncludes (jsToLower kbCD005.text) "orange" = false := by decide
    have h2 : jsIncludes (jsToLower kbCD005.text) "pinhole" = false := by decide
    have h3 : (kbCD005.code == "CD004-AD") = false := by decide
    rw [fallbackScore_CD005]
    unfold orangeRuleContrib pinholeRuleContrib adhesionRuleContrib
    rw [h1, h2, h3]
    simp

/-- C2, witness: the additivity theorem applied to the adhesion entry and a
description that triggers the adhesion rule. -/
theorem c2_fallback_score_additive_witness :
    kbCD004 ∈ KB ∧
    fallbackScore "poor adhesion on caps" kbCD004 =
      orangeRuleContrib "poor adhesion on caps" kbCD004
      + pinholeRuleContrib "poor adhesion on caps" kbCD004
      + adhesionRuleContrib "poor adhesion on caps" kbCD004 :=
  ⟨by decide, c2_fallback_score_additive "poor adhesion on caps" kbCD004 (by decide)⟩

/-- C3, counterexample: with a rationale model that throws, the analyze
request fails with a 500 error response rather than returning ok with the
empty string, refuting the claim that a rationale failure never fails the
request. -/
theorem c3_rationale_error_fails_request :
    runAnalyze envLlmFail (some ⟨some "orange peel defect", none, none⟩) =
      (⟨500, .errBody "llm unavailable"⟩, [.llm "orange peel defect"]) := by
  decide

/-- C3, amended: a null or absent rationale response is substituted by the
empty string and the request still succeeds, but an error raised by the
rationale generator is not caught by `handleAnalyze`: it propagates to the
top-level router, which turns it into a 500 error response, so a rationale
exception does fail the request. -/
theorem c3_amended_rationale_not_caught (env : Env) (d : String)
    (bm : MatchCandidate) (tr : List ExtCall)
    (hm : matchStep env d = (.ok bm, tr)) :
    (∀ e, env.llmRes d = .error e →
       runAnalyze env (some ⟨some d, none, none⟩) = (⟨500, .errBody e⟩, tr ++ [.llm d])) ∧
    (env.llmRes d = .ok none →
       runAnalyze env (some ⟨some d, none, none⟩) =
         (⟨200, .analyzeOk none bm (toDefectOut ((findSop bm.code).getD kbCD001)) ""⟩
         , tr ++ [.llm d])) := by
  constructor
  · intro e hllm
    unfold runAnalyze handleAnalyze imgStep
    dsimp only [Option.getD_some]
    rw [hm, hllm]
    simp
  · intro hllm
    unfold runAnalyze handleAnalyze imgStep
    dsimp only [Option.getD_some]
    rw [hm, hllm]
    simp

/-- C3, witness: the amended theorem applied to a concrete environment whose
rationale model throws. -/
theorem c3_amended_rationale_not_caught_witness :
    matchStep envLlmFail "zz" =
      (.ok ⟨"CD001-OP", "Orange peel – textured surface", "Medium", 0⟩, []) ∧
    envLlmFail.llmRes "zz" = .error "llm unavailable" ∧
    runAnalyze envLlmFail (some ⟨some "zz", none, none⟩) =
      (⟨500, .errBody "llm unavailable"⟩, [] ++ [.llm "zz"]) :=
  ⟨rfl, rfl,
   (c3_amended_rationale_not_caught envLlmFail "zz"
      ⟨"CD001-OP", "Orange peel – textured surface", "Medium", 0⟩ [] rfl).1
     "llm unavailable" rfl⟩

/-- C4, counterexample: on the vector path the `best_match` returned to the
caller carries the code taken from the index metadata unchanged; with an
index whose metadata code is "BOGUS" the response's best match has a code
that resolves to no KB entry, refuting the claim that the best match's code
is always present in the KB Store. -/
theorem c4_vector_metadata_code_not_in_kb :
    respBestMatch (runAnalyze envBogusMeta (some ⟨some "d", none, none⟩)).1 =
      some ⟨"BOGUS", "Bogus name", "High", 9⟩ ∧
    findSop "BOGUS" = none := by
  decide

/-- C4, amended: the `defect` payload returned to the caller is always a
projection of exactly one KB entry (the first entry is substituted when the
best match's code resolves to nothing), and on the fallback path the best
match's code always resolves to exactly one KB entry; but on the vector path
`best_match.code` comes from index metadata and may be absent from the KB. -/
theorem c4_amended_resolution :
    (∀ env body? dfc, respDefect (runAnalyze env body?).1 = some dfc →
       ∃ e, e ∈ KB ∧ dfc = toDefectOut e ∧ KB.countP (fun x => x.code == e.code) = 1) ∧
    (∀ d, KB.countP (fun x => x.code == (fallbackBest d).code) = 1) := by
  constructor
  · intro env body? dfc h
    cases body? with
    | none =>
      simp [runAnalyze, handleAnalyze, respDefect] at h
    | some body =>
      unfold runAnalyze handleAnalyze at h
      dsimp only at h
      rcases himg : imgStep env body.image_base64 body.filename with ⟨ik, tr1⟩
      rw [himg] at h
      rcases hms : matchStep env (body.description.getD "") with ⟨mres, tr2⟩
      rw [hms] at h
      cases mres with
      | error e => simp [respDefect] at h
      | ok bm =>
        cases hl : env.llmRes (body.description.getD "") with
        | error e => rw [hl] at h; simp [respDefect] at h
        | ok r =>
          rw [hl] at h
          simp only [respDefect, Option.some.injEq] at h
          refine ⟨(findSop bm.code).getD kbCD001, findSop_getD_mem _, ?_,
                  kb_code_unique _ (findSop_getD_mem _)⟩
          exact h.symm
  · intro d
    rw [fallbackBest_eval d]
    cases hb : jsIncludes (jsToLower d) "orange peel" <;>
    cases hc : (jsIncludes (jsToLower d) "adhesion" || jsIncludes (jsToLower d) "tape test") <;>
      decide

/-- C4, witness: the amended theorem applied to a fallback-path request whose
defect payload is the CD001 entry. -/
theorem c4_amended_resolution_witness :
    respDefect (runAnalyze envBase (some ⟨some "x", none, none⟩)).1 =
      some (toDefectOut kbCD001) ∧
    (∃ e, e ∈ KB ∧ toDefectOut kbCD001 = toDefectOut e ∧
       KB.countP (fun x => x.code == e.code) = 1) :=
  ⟨by decide,
   c4_amended_resolution.1 envBase (some ⟨some "x", none, none⟩)
     (toDefectOut kbCD001) (by decide)⟩

/-- C5: for every description, the fallback selection computed by the code
(stable descending sort, then first element) equals the spec-side selection:
the entry with the strictly highest score, the earlier-declared entry
winning ties. -/
theorem c5_fallback_selection_first_max (d : String) :
    fallbackBest d = specFallbackBest d :=
  (fallbackBest_eval d).trans (specFallbackBest_eval d).symm

/-- C6: analyze on "orange peel defect" with no vector index configured
succeeds via the keyword fallback (the trace shows no embedding or query
call) and returns best match CD001-OP with score 2. -/
theorem c6_orange_peel_keyword_path (env : Env) (r : Option String)
    (hv : env.vectorizeConfigured = false)
    (hllm : env.llmRes "orange peel defect" = .ok r) :
    runAnalyze env (some ⟨some "orange peel defect", none, none⟩) =
      (⟨200, .analyzeOk none
          ⟨"CD001-OP", "Orange peel – textured surface", "Medium", 2⟩
          (toDefectOut kbCD001) (r.getD "")⟩
      , [.llm "orange peel defect"]) := by
  have hfb : fallbackBest "orange peel defect" =
      ⟨"CD001-OP", "Orange peel – textured surface", "Medium", 2⟩ := by decide
  have hfs : findSop "CD001-OP" = some kbCD001 := by decide
  unfold runAnalyze handleAnalyze imgStep matchStep vectorizeMatch
  rw [hv]
  simp [hllm, hfb, hfs]

/-- C6, witness: the theorem applied to the benign unconfigured
environment. -/
theorem c6_orange_peel_keyword_path_witness :
    envBase.vectorizeConfigured = false ∧
    envBase.llmRes "orange peel defect" = .ok (some "") ∧
    runAnalyze envBase (some ⟨some "orange peel defect", none, none⟩) =
      (⟨200, .analyzeOk none
          ⟨"CD001-OP", "Orange peel – textured surface", "Medium", 2⟩
          (toDefectOut kbCD001) ""⟩
      , [.llm "orange peel defect"]) :=
  ⟨rfl, rfl, c6_orange_peel_keyword_path envBase (some "") rfl rfl⟩

/-- C7: a request whose image payload the base64 decoder rejects behaves
exactly like the same request without an image — in particular the
diagnostic fields are unchanged — and any success response it produces has a
null image key. -/
theorem c7_bad_image_nonfatal (env : Env) (body : AnalyzeBody)
    (ha : env.atobRes (stripDataUrl (body.image_base64.getD "")) = .error ()) :
    handleAnalyze env (some body) =
      handleAnalyze env (some ⟨body.description, none, body.filename⟩) ∧
    ∀ ik bm dfc r tr,
      handleAnalyze env (some body) = (.ok ⟨200, .analyzeOk ik bm dfc r⟩, tr) → ik = none := by
  have himg : imgStep env body.image_base64 body.filename = (none, []) := by
    unfold imgStep
    cases hcond : (env.r2Configured && body.image_base64.getD "" != "") <;>
      simp [hcond, ha]
  have himg2 : imgStep env none body.filename = (none, []) := by
    unfold imgStep
    simp
  constructor
  · unfold handleAnalyze
    dsimp only
    rw [himg, himg2]
  · intro ik bm dfc r tr heq
    unfold handleAnalyze at heq
    dsimp only at heq
    rw [himg] at heq
    rcases hms : matchStep env (body.description.getD "") with ⟨mres, tr2⟩
    rw [hms] at heq
    cases mres with
    | error e => simp at heq
    | ok bm2 =>
      cases hl : env.llmRes (body.description.getD "") with
      | error e => rw [hl] at heq; simp at heq
      | ok r2 =>
        rw [hl] at heq
        simp only [Prod.mk.injEq, Except.ok.injEq, Resp.mk.injEq,
                   RespBody.analyzeOk.injEq] at heq
        exact heq.1.2.1.symm

/-- C7, witness: the theorem applied to an environment whose decoder rejects
the concrete malformed payload. -/
theorem c7_bad_image_nonfatal_witness :
    envAtobFail.atobRes (stripDataUrl ((some "!!!" : Option String).getD "")) = .error () ∧
    (handleAnalyze envAtobFail (some ⟨some "x", some "!!!", none⟩) =
       handleAnalyze envAtobFail (some ⟨some "x", none, none⟩) ∧
     ∀ ik bm dfc r tr,
       handleAnalyze envAtobFail (some ⟨some "x", some "!!!", none⟩) =
         (.ok ⟨200, .analyzeOk ik bm dfc r⟩, tr) → ik = none) :=
  ⟨rfl, c7_bad_image_nonfatal envAtobFail ⟨some "x", some "!!!", none⟩ rfl⟩

/-- C8: a chat message whose trimmed length is below three characters is
answered with the clarifying prompt by every environment, with an empty
external-call trace — the analyze pipeline is never invoked. -/
theorem c8_short_chat_clarifies (env : Env) (msg : Option String)
    (h : (jsTrim (msg.getD "")).length < 3) :
    handleChat env (some ⟨msg⟩) = (.ok ⟨200, .chatReply clarifyPrompt⟩, []) := by
  unfold handleChat
  simp [h]

/-- C8, witness: the theorem applied to the two-character message "ab". -/
theorem c8_short_chat_clarifies_witness :
    ((jsTrim "ab").length < 3) ∧
    handleChat envBase (some ⟨some "ab"⟩) = (.ok ⟨200, .chatReply clarifyPrompt⟩, []) :=
  ⟨by decide, c8_short_chat_clarifies envBase (some "ab") (by decide)⟩

/-- C9: seeding with no vector index configured answers 500 with the
missing-binding message for every environment, with an empty external-call
trace — no embedding call and no upsert is performed. -/
theorem c9_seed_unconfigured (env : Env) (hv : env.vectorizeConfigured = false) :
    runSeed env = (⟨500, .errBody "VECTORIZE_INDEX binding missing"⟩, []) := by
  unfold runSeed handleSeed
  rw [hv]
  simp

/-- C9, witness: the theorem applied to the benign unconfigured
environment. -/
theorem c9_seed_unconfigured_witness :
    envBase.vectorizeConfigured = false ∧
    runSeed envBase = (⟨500, .errBody "VECTORIZE_INDEX binding missing"⟩, []) :=
  ⟨rfl, c9_seed_unconfigured envBase rfl⟩

/-- C10: with a missing or empty description and no vector index, every KB
entry's fallback score is 0 and analyze still succeeds, returning the first
KB entry CD001-OP with score 0 as the best match. -/
theorem c10_empty_description_default (env : Env) (d : Option String) (r : Option String)
    (hd : d.getD "" = "") (hv : env.vectorizeConfigured = false)
    (hllm : env.llmRes "" = .ok r) :
    (∀ e ∈ KB, fallbackScore (jsToLower "") e = 0) ∧
    runAnalyze env (some ⟨d, none, none⟩) =
      (⟨200, .analyzeOk none
          ⟨"CD001-OP", "Orange peel – textured surface", "Medium", 0⟩
          (toDefectOut kbCD001) (r.getD "")⟩
      , [.llm ""]) := by
  refine ⟨by decide, ?_⟩
  have hfb : fallbackBest "" =
      ⟨"CD001-OP", "Orange peel – textured surface", "Medium", 0⟩ := by decide
  have hfs : findSop "CD001-OP" = some kbCD001 := by decide
  unfold runAnalyze handleAnalyze imgStep matchStep vectorizeMatch
  rw [hv]
  simp [hd, hllm, hfb, hfs]

/-- C10, witness: the theorem applied to a request with no description
field. -/
theorem c10_empty_description_default_witness :
    ((none : Option String).getD "" = "") ∧
    envBase.vectorizeConfigured = false ∧
    envBase.llmRes "" = .ok (some "") ∧
    ((∀ e ∈ KB, fallbackScore (jsToLower "") e = 0) ∧
     runAnalyze envBase (some ⟨none, none, none⟩) =
       (⟨200, .analyzeOk none
           ⟨"CD001-OP", "Orange peel – textured surface", "Medium", 0⟩
           (toDefectOut kbCD001) ""⟩
       , [.llm ""])) :=
  ⟨rfl, rfl, rfl, c10_empty_description_default envBase none (some "") rfl rfl rfl⟩
